import Mathlib

/-!
Verification of the invoice-processing pipeline (`app/ml/`) against its
natural-language specification.

Shallow embedding conventions:
* Python floats are modelled as `ℚ`; `round(x, 2)` is modelled by `round2`
  (round half up at the second decimal; Python's float round differs only
  on exact half-cent ties, which no statement here exercises).
* The pipeline state dict (`InvoiceState` in `app/ml/state.py`, populated
  with defaults in `pipeline.process_invoice`) becomes a structure with
  explicitly typed optional fields.
* LLM / OCR calls are oracles passed as parameters; a Python exception of
  an external call is the `Except.error` case.
* Python values observed only through truthiness and `float()` conversion
  (the raw line-item dict entries) are modelled by `PyVal`; a missing key
  and an explicit `None` value both become `Option.none`, exactly as both
  are observed via `dict.get`.
* Validation errors are produced as an inductive type whose constructors
  carry the values the source interpolates into its message strings.
-/

/-- Status enum `PipelineStatus` from `app/ml/state.py` (a string enum in the source). -/
inductive PipelineStatus where
  | pending
  | extracted
  | validated
  | failed
  | anomalyFlagged
  | completed
deriving DecidableEq, Repr

/-- One validation error.  Each constructor corresponds to one message the
source builds (`validation_node`, `ocr_node`, `extraction_node`), carrying
the values interpolated into the f-string. -/
inductive VError where
  | missingVendorName
  | missingInvoiceNumber
  | missingTotalAmount
  | missingInvoiceDate
  | totalMismatch (subtotal tax expected actual : ℚ)
  | negativeAmount (field : String) (value : ℚ)
  | lowConfidence (score : ℚ)
  | lineItemsMismatch (lineTotal subtotal : ℚ)
  | extractionFailed (msg : String)
  | ocrFailed (msg : String)
  | noTextExtracted
deriving DecidableEq, Repr

/-- A normalized line item: the dict
`{description, quantity, unit_price, total}` built by
`_normalize_line_items` in `app/ml/nodes/extraction_node.py`. -/
structure LineItem where
  description : String
  quantity : ℚ
  unit_price : ℚ
  total : ℚ
deriving DecidableEq, Repr

/-- A raw Python value as observed by the line-item normalizer: only its
truthiness and the result of `float(v)` matter (`asFloat = none` means
`float(v)` raises).  A number `q` is `⟨q ≠ 0, some q⟩`. -/
structure PyVal where
  truthy : Bool
  asFloat : Option ℚ
deriving DecidableEq, Repr

/-- A Python number as a `PyVal`. -/
def pyNum (q : ℚ) : PyVal := ⟨decide (q ≠ 0), some q⟩

/-- A non-numeric Python value (e.g. a non-numeric string, for which
`float` raises); `b` is its truthiness. -/
def pyOther (b : Bool) : PyVal := ⟨b, none⟩

/-- One raw line-item dict from the LLM.  `none` = key absent or value
`None` (indistinguishable through `dict.get`).  The `description`/`item`
values are modelled as strings since the source passes them to `str`. -/
structure RawItem where
  description : Option String
  item : Option String
  quantity : Option PyVal
  qty : Option PyVal
  unit_price : Option PyVal
  rate : Option PyVal
  price : Option PyVal
  total : Option PyVal
  amount : Option PyVal
deriving DecidableEq, Repr

/-- An entry of the raw `line_items` list: a dict, or a non-dict value
(which the source skips with `continue`). -/
inductive RawEntry where
  | dict (d : RawItem)
  | nondict
deriving DecidableEq, Repr

/-- The parsed JSON result of the field-extraction LLM call
(`result` in `extraction_node`), as read via `result.get`. -/
structure ExtractFields where
  vendor_name : Option String
  invoice_number : Option String
  invoice_date : Option String
  line_items : Option (List RawEntry)
  subtotal : Option ℚ
  tax_amount : Option ℚ
  total_amount : Option ℚ
  confidence_score : Option ℚ
deriving DecidableEq, Repr

/-- The parsed JSON result of the anomaly-detection LLM call in
`app/ml/nodes/anomaly_node.py`. -/
structure AnomOut where
  anomalies : List String
  risk_score : ℚ
  risk_level : String
deriving DecidableEq, Repr

/-- The pipeline work record: `InvoiceState` with the defaults installed by
`process_invoice` in `app/ml/pipeline.py` (every key always present). -/
structure InvoiceState where
  file_path : String
  raw_text : String
  vendor_name : Option String
  invoice_number : Option String
  invoice_date : Option String
  line_items : List LineItem
  subtotal : Option ℚ
  tax_amount : Option ℚ
  total_amount : Option ℚ
  confidence_score : ℚ
  retry_count : ℕ
  validation_errors : List VError
  anomaly_flags : List String
  status : PipelineStatus
  is_tax_exempt : Bool
  tax_exempt_reason : Option String
  whitelisted_vendors : List String
deriving DecidableEq, Repr

/-- Python `round(x, 2)` on exact rationals: round half up at two
decimals.  (Python's float `round` is round-half-even on the nearest
float; the two differ only on exact half-cent ties, which nothing in this
development exercises.) -/
def round2 (q : ℚ) : ℚ := (Int.floor (q * 100 + 1/2) : ℚ) / 100

/-- Python `str.lower()` (ASCII; invoices in this code path are ASCII). -/
def pyLower (s : String) : String := ⟨s.data.map Char.toLower⟩

/-- Python `str.strip()`: drop leading and trailing whitespace. -/
def pyStrip (s : String) : String :=
  ⟨((s.data.dropWhile Char.isWhitespace).reverse.dropWhile Char.isWhitespace).reverse⟩

/-- Python `needle in hay` on strings: substring test. -/
def strIn (needle hay : String) : Bool :=
  hay.data.tails.any fun t => needle.data.isPrefixOf t

/-- Python `a or b` over optional values (`None` and falsy values fall
through to `b`; the last operand is returned even when falsy). -/
def pyOr (a b : Option PyVal) : Option PyVal :=
  match a with
  | none => b
  | some v => if v.truthy then some v else b

/-- Python `a or b` over optional strings (truthiness = non-empty). -/
def strOr (a b : Option String) : Option String :=
  match a with
  | none => b
  | some s => if s ≠ "" then some s else b

/-- Source function `_num` from `extraction_node.py`: `float(val)` with a default for
`None` and for values `float` rejects. -/
def coerce_num (val : Option PyVal) (default : ℚ) : ℚ :=
  match val with
  | none => default
  | some v => v.asFloat.getD default

/-- The loop body of `_normalize_line_items`: builds one normalized item
from one raw dict. -/
def normalizeRawItem (d : RawItem) : LineItem :=
  let total_val : Option PyVal :=
    match d.total with
    | some v => some v
    | none => d.amount
  let total : ℚ :=
    match total_val with
    | some v => v.asFloat.getD 0
    | none => 0
  let qty := coerce_num (pyOr d.quantity d.qty) 1
  let unit := coerce_num (pyOr (pyOr d.unit_price d.rate) d.price) 0
  let desc := pyStrip ((strOr d.description d.item).getD "")
  ⟨desc, qty, unit, total⟩

/-- The per-item step of `_fix_line_item_math`. -/
def fixLineItem (it : LineItem) : LineItem :=
  if it.quantity ≤ 0 then it
  else
    let total :=
      if it.total = 0 ∧ it.unit_price > 0 then round2 (it.quantity * it.unit_price)
      else it.total
    let unit :=
      if it.unit_price = 0 ∧ total > 0 then
        (if it.quantity ≠ 0 then round2 (total / it.quantity) else 0)
      else it.unit_price
    ⟨it.description, it.quantity, unit, total⟩

/-- Source function `_fix_line_item_math` from `extraction_node.py` (the loop maps
`fixLineItem` over the list). -/
def fix_line_item_math (items : List LineItem) : List LineItem :=
  items.map fixLineItem

/-- Source function `_normalize_line_items` from `extraction_node.py`: `None` (or a
non-list) becomes `[]`; non-dict entries are skipped; each dict is
normalized, then `_fix_line_item_math` runs over the result. -/
def normalize_line_items (value : Option (List RawEntry)) : List LineItem :=
  match value with
  | none => []
  | some l =>
      fix_line_item_math
        (l.filterMap fun e =>
          match e with
          | RawEntry.dict d => some (normalizeRawItem d)
          | RawEntry.nondict => none)

/-- Sum of the `total` fields (`sum(it["total"] for it in items)`). -/
def sumTotals (l : List LineItem) : ℚ := (l.map LineItem.total).sum

/-- Source function `_fix_line_items_with_subtotal` from `extraction_node.py`.
`line_total` is `sumTotals items`, `rest_total` is
`sumTotals items.dropLast` (`items[:-1]`) and `correct_last_total` is
`round2 (sub - rest_total)`, inlined at their use sites. -/
def fix_line_items_with_subtotal (items : List LineItem) :
    Option ℚ → List LineItem
  | none => items
  | some sub =>
      if items = [] then items
      else if |sumTotals items - sub| < 2/100 then items
      else if round2 (sub - sumTotals items.dropLast) < 0 then items
      else
        match items.getLast? with
        | none => items
        | some last =>
            items.dropLast ++
              [⟨last.description, last.quantity,
                (if last.quantity ≠ 0 then
                  round2 (round2 (sub - sumTotals items.dropLast) / last.quantity)
                 else 0),
                round2 (sub - sumTotals items.dropLast)⟩]

/-- Evaluation helper: `round2 q = a / 100` once the floor argument is
bracketed by `a` and `a + 1`. -/
theorem round2_val (q : ℚ) (a : ℤ) (h₁ : (a : ℚ) ≤ q * 100 + 1/2)
    (h₂ : q * 100 + 1/2 < a + 1) : round2 q = (a : ℚ) / 100 := by
  unfold round2
  rw [Int.floor_eq_iff.mpr ⟨h₁, h₂⟩]

/-! ### Validation stage (`app/ml/nodes/validation_node.py`) -/

/-- Python truthiness of an optional string (`not state.get(k)`). -/
def truthyStr : Option String → Bool
  | none => false
  | some s => s ≠ ""

/-- Python truthiness of an optional number. -/
def truthyNum : Option ℚ → Bool
  | none => false
  | some q => q ≠ 0

/-- Rule 1 of `validation_node`: required fields, via truthiness. -/
def requiredFieldErrors (s : InvoiceState) : List VError :=
  (if truthyStr s.vendor_name then [] else [VError.missingVendorName]) ++
  (if truthyStr s.invoice_number then [] else [VError.missingInvoiceNumber]) ++
  (if truthyNum s.total_amount then [] else [VError.missingTotalAmount]) ++
  (if truthyStr s.invoice_date then [] else [VError.missingInvoiceDate])

/-- Rule 2 of `validation_node`: subtotal + tax = total within 0.01. -/
def totalsErrors (s : InvoiceState) : List VError :=
  match s.subtotal, s.tax_amount, s.total_amount with
  | some sub, some tax, some tot =>
      let expected_total := round2 (sub + tax)
      let actual_total := round2 tot
      if |expected_total - actual_total| > 1/100 then
        [VError.totalMismatch sub tax expected_total actual_total]
      else []
  | _, _, _ => []

/-- Rule 3 of `validation_node`: negative amounts, field by field. -/
def negativeErrors (s : InvoiceState) : List VError :=
  (match s.subtotal with
   | some v => if v < 0 then [VError.negativeAmount "subtotal" v] else []
   | none => []) ++
  (match s.tax_amount with
   | some v => if v < 0 then [VError.negativeAmount "tax_amount" v] else []
   | none => []) ++
  (match s.total_amount with
   | some v => if v < 0 then [VError.negativeAmount "total_amount" v] else []
   | none => [])

/-- Rule 4 of `validation_node`: confidence floor 0.60. -/
def confidenceErrors (s : InvoiceState) : List VError :=
  if s.confidence_score < 6/10 then [VError.lowConfidence s.confidence_score] else []

/-- Rule 5 of `validation_node`: line items vs subtotal (both guarded by
truthiness: a `[]` line-item list or a zero/absent subtotal skips it). -/
def lineItemsErrors (s : InvoiceState) : List VError :=
  match s.subtotal with
  | some sub =>
      if s.line_items ≠ [] ∧ sub ≠ 0 then
        let line_items_total := round2 (sumTotals s.line_items)
        let subtotal := round2 sub
        if |line_items_total - subtotal| > 1/100 then
          [VError.lineItemsMismatch line_items_total subtotal]
        else []
      else []
  | none => []

/-- The `errors` list accumulated by `validation_node`, in source order. -/
def ruleErrors (s : InvoiceState) : List VError :=
  requiredFieldErrors s ++ totalsErrors s ++ negativeErrors s ++
    confidenceErrors s ++ lineItemsErrors s

/-- Source function `validation_node` from `app/ml/nodes/validation_node.py`. -/
def validation_node (s : InvoiceState) : InvoiceState :=
  if s.status = PipelineStatus.failed then s
  else if ruleErrors s ≠ [] then { s with validation_errors := ruleErrors s }
  else { s with validation_errors := [], status := PipelineStatus.validated }

/-- Source function `should_retry` from `app/ml/nodes/validation_node.py`; returns the
routing key used by the conditional edge in `pipeline.py`. -/
def should_retry (s : InvoiceState) : String :=
  if s.validation_errors = [] then "proceed"
  else if s.retry_count < 2 then "retry"
  else "failed"

/-! ### Field extraction stage (`app/ml/nodes/extraction_node.py`) -/

/-- Source function `extraction_node`: the LLM call + JSON parse is the oracle `o`
(`Except.error` = any exception in the call or parsing). -/
def extraction_node (o : Except String ExtractFields) (s : InvoiceState) :
    InvoiceState :=
  if s.status = PipelineStatus.failed then s
  else
    match o with
    | Except.ok f =>
        let line_items :=
          fix_line_items_with_subtotal (normalize_line_items f.line_items) f.subtotal
        { s with
            vendor_name := f.vendor_name
            invoice_number := f.invoice_number
            invoice_date := f.invoice_date
            line_items := line_items
            subtotal := f.subtotal
            tax_amount := f.tax_amount
            total_amount := f.total_amount
            confidence_score := f.confidence_score.getD 0
            status := PipelineStatus.extracted }
    | Except.error e =>
        { s with
            status := PipelineStatus.failed
            validation_errors := [VError.extractionFailed e] }

/-! ### Anomaly detection stage (`app/ml/nodes/anomaly_node.py`) -/

/-- The marker list of `_filter_vendor_anomalies`. -/
def vendorKeywords : List String :=
  ["vendor", "vendor name", "company name", "generic name", "suspicious name"]

/-- Source function `_is_vendor_whitelisted` from `anomaly_node.py`. -/
def is_vendor_whitelisted (vendor_name : String) (whitelisted_vendors : List String) :
    Bool :=
  if vendor_name = "" ∨ whitelisted_vendors = [] then false
  else
    let vendor_lower := pyStrip (pyLower vendor_name)
    whitelisted_vendors.any fun w =>
      vendor_lower = w ∨ strIn w vendor_lower ∨ strIn vendor_lower w

/-- Source function `_filter_vendor_anomalies` from `anomaly_node.py`. -/
def filter_vendor_anomalies (anomalies : List String) (vendor_name : Option String)
    (whitelisted_vendors : List String) : List String :=
  match vendor_name with
  | none => anomalies
  | some v =>
      if v = "" then anomalies
      else if ¬ is_vendor_whitelisted v whitelisted_vendors then anomalies
      else
        anomalies.filter fun a =>
          ! (vendorKeywords.any fun keyword => strIn keyword (pyLower a))

/-- Source function `anomaly_node`: the fraud-analysis LLM call + parse is the oracle `o`
(`Except.error` = any exception during the call or parsing). -/
def anomaly_node (o : Except Unit AnomOut) (s : InvoiceState) : InvoiceState :=
  if s.status = PipelineStatus.failed then s
  else if s.status ≠ PipelineStatus.validated then s
  else
    match o with
    | Except.ok result =>
        if filter_vendor_anomalies result.anomalies s.vendor_name
            s.whitelisted_vendors ≠ [] then
          { s with
              anomaly_flags := filter_vendor_anomalies result.anomalies
                s.vendor_name s.whitelisted_vendors
              status := PipelineStatus.anomalyFlagged }
        else
          { s with
              anomaly_flags := filter_vendor_anomalies result.anomalies
                s.vendor_name s.whitelisted_vendors
              status := PipelineStatus.completed }
    | Except.error _ =>
        { s with anomaly_flags := [], status := PipelineStatus.completed }

/-! ### OCR stage and orchestration (`app/ml/nodes/ocr_node.py`,
`app/ml/pipeline.py`) -/

/-- Source function `ocr_node`: the backend chain is the oracle `o` (`Except.ok` = the raw
text some backend returned, possibly empty; `Except.error` = an exception
from any backend). -/
def ocr_node (o : Except String String) (s : InvoiceState) : InvoiceState :=
  match o with
  | Except.ok raw_text =>
      if pyStrip raw_text = "" then
        { s with
            raw_text := ""
            status := PipelineStatus.failed
            validation_errors := [VError.noTextExtracted] }
      else { s with raw_text := pyStrip raw_text }
  | Except.error e =>
      { s with
          raw_text := ""
          status := PipelineStatus.failed
          validation_errors := [VError.ocrFailed e] }

/-- Source function `retry_node` from `app/ml/pipeline.py`. -/
def retry_node (s : InvoiceState) : InvoiceState :=
  { s with retry_count := s.retry_count + 1, validation_errors := [] }

/-- Source function `failed_node` from `app/ml/pipeline.py`. -/
def failed_node (s : InvoiceState) : InvoiceState :=
  { s with status := PipelineStatus.failed }

/-- One extract-then-validate pass; the extraction oracle is indexed by the
current retry count, so each of the (at most 3) attempts may answer
differently. -/
def pipelineStep (ex : ℕ → Except String ExtractFields) (s : InvoiceState) :
    InvoiceState :=
  validation_node (extraction_node (ex s.retry_count) s)

theorem extraction_node_retry_count (o : Except String ExtractFields)
    (s : InvoiceState) : (extraction_node o s).retry_count = s.retry_count := by
  unfold extraction_node
  cases o <;> split <;> rfl

theorem validation_node_retry_count (s : InvoiceState) :
    (validation_node s).retry_count = s.retry_count := by
  unfold validation_node
  split
  · rfl
  · split <;> rfl

theorem pipelineStep_retry_count (ex : ℕ → Except String ExtractFields)
    (s : InvoiceState) : (pipelineStep ex s).retry_count = s.retry_count := by
  unfold pipelineStep
  rw [validation_node_retry_count, extraction_node_retry_count]

theorem should_retry_eq_retry {s : InvoiceState} (h : should_retry s = "retry") :
    s.retry_count < 2 := by
  unfold should_retry at h
  split at h
  · exact absurd h (by decide)
  · split at h
    · assumption
    · exact absurd h (by decide)

/-- The compiled LangGraph loop from `build_pipeline`:
`extract → validate → {proceed ↦ anomaly → END, retry ↦ retry → extract,
failed ↦ failed → END}`.  Returns the final record together with the
number of times the extraction node ran.  Termination: the `retry` edge is
taken only when `retry_count < 2`, and `retry_node` increments it. -/
def runLoop (ex : ℕ → Except String ExtractFields) (ao : Except Unit AnomOut)
    (s : InvoiceState) : InvoiceState × ℕ :=
  if should_retry (pipelineStep ex s) = "proceed" then
    (anomaly_node ao (pipelineStep ex s), 1)
  else if h : should_retry (pipelineStep ex s) = "retry" then
    let r := runLoop ex ao (retry_node (pipelineStep ex s))
    (r.1, r.2 + 1)
  else (failed_node (pipelineStep ex s), 1)
termination_by 2 - s.retry_count
decreasing_by
  have h2 := should_retry_eq_retry h
  rw [pipelineStep_retry_count] at h2
  simp only [retry_node, pipelineStep_retry_count]
  omega

/-- The initial state built by `process_invoice` in `pipeline.py`
(whitelist entries lower-cased and stripped at pipeline entry). -/
def initial_state (file_path : String) (whitelisted_vendors : List String)
    (is_tax_exempt : Bool) (tax_exempt_reason : Option String) : InvoiceState :=
  { file_path := file_path
    raw_text := ""
    vendor_name := none
    invoice_number := none
    invoice_date := none
    line_items := []
    subtotal := none
    tax_amount := none
    total_amount := none
    confidence_score := 0
    retry_count := 0
    validation_errors := []
    anomaly_flags := []
    status := PipelineStatus.pending
    is_tax_exempt := is_tax_exempt
    tax_exempt_reason := tax_exempt_reason
    whitelisted_vendors := whitelisted_vendors.map fun v => pyStrip (pyLower v) }

/-- Source function `process_invoice` from `pipeline.py`: build the initial state, run the
graph from the `ocr` entry point.  Also yields the extraction-run count. -/
def process_invoice (ocr : Except String String)
    (ex : ℕ → Except String ExtractFields) (ao : Except Unit AnomOut)
    (file_path : String) (whitelisted_vendors : List String)
    (is_tax_exempt : Bool) (tax_exempt_reason : Option String) :
    InvoiceState × ℕ :=
  runLoop ex ao (ocr_node ocr (initial_state file_path whitelisted_vendors
    is_tax_exempt tax_exempt_reason))

/-! ### Concrete records used to instantiate the theorems -/

/-- A fresh work record, as built by `process_invoice` for one document. -/
def baseState : InvoiceState := initial_state "invoice.pdf" [] false none

/-- An extracted record with no tax amount, not tax-exempt, and every
other validation rule satisfied. -/
def recC1 : InvoiceState :=
  { baseState with
      vendor_name := some "Acme Corp"
      invoice_number := some "INV-1001"
      invoice_date := some "2024-01-15"
      total_amount := some 110
      confidence_score := 9/10
      status := PipelineStatus.extracted }

/-- The totals-mismatch scenario: subtotal 100, tax 10, total 109.50. -/
def recC9 : InvoiceState :=
  { recC1 with subtotal := some 100, tax_amount := some 10,
               total_amount := some (219/2) }

/-- An extracted record whose `vendorName` is `""` and whose
`totalAmount` is present but 0. -/
def recC10 : InvoiceState :=
  { baseState with
      vendor_name := some ""
      total_amount := some 0
      status := PipelineStatus.extracted }

/-- A failed record that still carries a validation error. -/
def sFailedErr : InvoiceState :=
  { baseState with
      status := PipelineStatus.failed
      validation_errors := [VError.missingVendorName] }

/-- A validated record about to enter anomaly detection. -/
def sValidated : InvoiceState := { baseState with status := PipelineStatus.validated }

/-- One line item whose total misses the subtotal 10 by exactly 0.02. -/
def itemsA : List LineItem := [⟨"a", 1, 501/50, 501/50⟩]

/-- Two line items summing to 6 against a declared subtotal of 15. -/
def itemsB : List LineItem := [⟨"x", 1, 5, 5⟩, ⟨"y", 3, 1, 1⟩]

/-- A raw line-item dict whose `quantity` key holds the number 0. -/
def dQ0 : RawItem :=
  ⟨some "x", none, some (pyNum 0), none, some (pyNum 5), none, none,
   some (pyNum 5), none⟩

/-- A raw line-item dict with `quantity` absent and `qty` = 0. -/
def dQty0 : RawItem :=
  ⟨some "x", none, none, some (pyNum 0), some (pyNum 5), none, none,
   some (pyNum 5), none⟩

/-- An extraction oracle whose parsed JSON has every field null: the
resulting record fails validation on every attempt. -/
def exAllNull : ℕ → Except String ExtractFields :=
  fun _ => Except.ok ⟨none, none, none, none, none, none, none, none⟩

/-- An anomaly oracle that always raises. -/
def aoRaise : Except Unit AnomOut := Except.error ()

/-! ## Theorems -/

theorem validation_node_errors (s : InvoiceState)
    (h : s.status ≠ PipelineStatus.failed) :
    (validation_node s).validation_errors = ruleErrors s := by
  unfold validation_node
  rw [if_neg h]
  split
  · rfl
  · next h2 =>
      push_neg at h2
      exact h2.symm

theorem mem_requiredFieldErrors {s : InvoiceState} {e : VError}
    (h : e ∈ requiredFieldErrors s) :
    e = VError.missingVendorName ∨ e = VError.missingInvoiceNumber ∨
    e = VError.missingTotalAmount ∨ e = VError.missingInvoiceDate := by
  unfold requiredFieldErrors at h
  simp only [List.mem_append] at h
  rcases h with ((h | h) | h) | h <;> split at h <;> simp_all

theorem mem_totalsErrors {s : InvoiceState} {e : VError}
    (h : e ∈ totalsErrors s) :
    ∃ a b c d, e = VError.totalMismatch a b c d := by
  unfold totalsErrors at h
  split at h <;> simp_all

theorem mem_negativeErrors {s : InvoiceState} {e : VError}
    (h : e ∈ negativeErrors s) :
    ∃ f v, e = VError.negativeAmount f v := by
  unfold negativeErrors at h
  simp only [List.mem_append] at h
  rcases h with (h | h) | h <;> split at h <;> (try split at h) <;> simp_all

theorem mem_confidenceErrors {s : InvoiceState} {e : VError}
    (h : e ∈ confidenceErrors s) : ∃ c, e = VError.lowConfidence c := by
  unfold confidenceErrors at h
  split at h <;> simp_all

theorem mem_lineItemsErrors {s : InvoiceState} {e : VError}
    (h : e ∈ lineItemsErrors s) : ∃ a b, e = VError.lineItemsMismatch a b := by
  unfold lineItemsErrors at h
  split at h <;> (try split at h) <;> simp_all

/-! ### C3 — retry routing and the retry step -/

/-- C3 counterexample: the claim says a record with `status = Failed`
routes to terminal failure, but `should_retry` never looks at `status`:
with one validation error and `retryCount = 0`, a failed record routes to
`"retry"`, not `"failed"`. -/
theorem C3_counterexample :
    sFailedErr.status = PipelineStatus.failed ∧
    should_retry sFailedErr = "retry" ∧ should_retry sFailedErr ≠ "failed" := by
  refine ⟨rfl, rfl, ?_⟩
  decide

/-- C3 (amended): routing after validation ignores `status` entirely:
empty `validationErrors` routes to anomaly detection, non-empty with
`retryCount < 2` routes to retry, non-empty with `retryCount ≥ 2` routes
to terminal failure; the retry step increments `retryCount` by exactly 1,
clears `validationErrors`, and changes no other field. -/
theorem C3_routing (s : InvoiceState) :
    (s.validation_errors = [] → should_retry s = "proceed") ∧
    (s.validation_errors ≠ [] → s.retry_count < 2 → should_retry s = "retry") ∧
    (s.validation_errors ≠ [] → 2 ≤ s.retry_count → should_retry s = "failed") ∧
    retry_node s = { s with retry_count := s.retry_count + 1, validation_errors := [] } := by
  refine ⟨?_, ?_, ?_, rfl⟩
  · intro h
    unfold should_retry
    rw [if_pos h]
  · intro h h2
    unfold should_retry
    rw [if_neg h, if_pos h2]
  · intro h h2
    unfold should_retry
    rw [if_neg h, if_neg (by omega)]

/-- C3 witness: the amended routing at a concrete record. -/
theorem C3_routing_witness :
    sFailedErr.validation_errors ≠ [] ∧ sFailedErr.retry_count < 2 ∧
    should_retry sFailedErr = "retry" := by
  refine ⟨by decide, by decide, (C3_routing sFailedErr).2.1 (by decide) (by decide)⟩

/-! ### C4 — anomaly stage error absorption -/

/-- C4: the anomaly stage is a pass-through unless `status = Validated`;
for a validated record its output status is always terminal
(`Completed` or `AnomalyFlagged`); and any exception of the LLM call or
parsing (the `Except.error` oracle case) yields `anomalyFlags = []` and
`status = Completed` — nothing propagates. -/
theorem C4_anomaly_absorbs (o : Except Unit AnomOut) (s : InvoiceState) :
    (s.status ≠ PipelineStatus.validated → anomaly_node o s = s) ∧
    (s.status = PipelineStatus.validated →
      (anomaly_node o s).status = PipelineStatus.completed ∨
      (anomaly_node o s).status = PipelineStatus.anomalyFlagged) ∧
    (s.status = PipelineStatus.validated → ∀ u, o = Except.error u →
      anomaly_node o s =
        { s with anomaly_flags := [], status := PipelineStatus.completed }) := by
  refine ⟨?_, ?_, ?_⟩
  · intro h
    by_cases hf : s.status = PipelineStatus.failed <;>
      simp [anomaly_node, hf, h]
  · intro h
    cases o with
    | ok r =>
        by_cases hA : filter_vendor_anomalies r.anomalies s.vendor_name
            s.whitelisted_vendors = []
        · exact Or.inl (by simp [anomaly_node, h, hA])
        · exact Or.inr (by simp [anomaly_node, h, hA])
    | error u => exact Or.inl (by simp [anomaly_node, h])
  · intro h u ho
    subst ho
    simp [anomaly_node, h]

/-- C4 witness: a validated record whose anomaly LLM call raises completes
with empty flags. -/
theorem C4_anomaly_absorbs_witness :
    sValidated.status = PipelineStatus.validated ∧
    anomaly_node (Except.error ()) sValidated =
      { sValidated with anomaly_flags := [], status := PipelineStatus.completed } :=
  ⟨rfl, (C4_anomaly_absorbs (Except.error ()) sValidated).2.2 rfl () rfl⟩

/-! ### C10 — truthiness in the required-field checks -/

/-- C10: the required-field checks use Python truthiness, so a
`totalAmount` present but equal to 0, or a `vendorName` /
`invoiceNumber` / `invoiceDate` present but equal to `""`, draws the same
"Missing ..." error as an absent field — and these are the only ways to
draw it. -/
theorem truthyStr_eq_false (x : Option String) :
    truthyStr x = false ↔ x = none ∨ x = some "" := by
  cases x <;> simp [truthyStr]

theorem truthyNum_eq_false (x : Option ℚ) :
    truthyNum x = false ↔ x = none ∨ x = some 0 := by
  cases x <;> simp [truthyNum]

/-- A "Missing ..." error can only come from the required-field rule. -/
theorem missing_mem_ruleErrors (s : InvoiceState) (e : VError)
    (h4 : ∀ a b c d, e ≠ VError.totalMismatch a b c d)
    (h5 : ∀ f v, e ≠ VError.negativeAmount f v)
    (h6 : ∀ c, e ≠ VError.lowConfidence c)
    (h7 : ∀ a b, e ≠ VError.lineItemsMismatch a b) :
    e ∈ ruleErrors s ↔ e ∈ requiredFieldErrors s := by
  unfold ruleErrors
  simp only [List.mem_append]
  constructor
  · rintro ((((hc | hc) | hc) | hc) | hc)
    · exact hc
    · obtain ⟨a, b, c, d, hEq⟩ := mem_totalsErrors hc
      exact absurd hEq (h4 a b c d)
    · obtain ⟨f, v, hEq⟩ := mem_negativeErrors hc
      exact absurd hEq (h5 f v)
    · obtain ⟨c, hEq⟩ := mem_confidenceErrors hc
      exact absurd hEq (h6 c)
    · obtain ⟨a, b, hEq⟩ := mem_lineItemsErrors hc
      exact absurd hEq (h7 a b)
  · exact fun hc => Or.inl (Or.inl (Or.inl (Or.inl hc)))

theorem req_missingVendor (s : InvoiceState) :
    VError.missingVendorName ∈ requiredFieldErrors s ↔
      truthyStr s.vendor_name = false := by
  unfold requiredFieldErrors
  split_ifs <;> simp_all

theorem req_missingNumber (s : InvoiceState) :
    VError.missingInvoiceNumber ∈ requiredFieldErrors s ↔
      truthyStr s.invoice_number = false := by
  unfold requiredFieldErrors
  split_ifs <;> simp_all

theorem req_missingTotal (s : InvoiceState) :
    VError.missingTotalAmount ∈ requiredFieldErrors s ↔
      truthyNum s.total_amount = false := by
  unfold requiredFieldErrors
  split_ifs <;> simp_all

theorem req_missingDate (s : InvoiceState) :
    VError.missingInvoiceDate ∈ requiredFieldErrors s ↔
      truthyStr s.invoice_date = false := by
  unfold requiredFieldErrors
  split_ifs <;> simp_all

theorem C10_truthiness (s : InvoiceState) (h : s.status ≠ PipelineStatus.failed) :
    (VError.missingTotalAmount ∈ (validation_node s).validation_errors ↔
      (s.total_amount = none ∨ s.total_amount = some 0)) ∧
    (VError.missingVendorName ∈ (validation_node s).validation_errors ↔
      (s.vendor_name = none ∨ s.vendor_name = some "")) ∧
    (VError.missingInvoiceNumber ∈ (validation_node s).validation_errors ↔
      (s.invoice_number = none ∨ s.invoice_number = some "")) ∧
    (VError.missingInvoiceDate ∈ (validation_node s).validation_errors ↔
      (s.invoice_date = none ∨ s.invoice_date = some "")) := by
  rw [validation_node_errors s h]
  refine ⟨?_, ?_, ?_, ?_⟩
  · rw [missing_mem_ruleErrors s _ (fun a b c d h => VError.noConfusion h)
      (fun f v h => VError.noConfusion h) (fun c h => VError.noConfusion h)
      (fun a b h => VError.noConfusion h), req_missingTotal, truthyNum_eq_false]
  · rw [missing_mem_ruleErrors s _ (fun a b c d h => VError.noConfusion h)
      (fun f v h => VError.noConfusion h) (fun c h => VError.noConfusion h)
      (fun a b h => VError.noConfusion h), req_missingVendor, truthyStr_eq_false]
  · rw [missing_mem_ruleErrors s _ (fun a b c d h => VError.noConfusion h)
      (fun f v h => VError.noConfusion h) (fun c h => VError.noConfusion h)
      (fun a b h => VError.noConfusion h), req_missingNumber, truthyStr_eq_false]
  · rw [missing_mem_ruleErrors s _ (fun a b c d h => VError.noConfusion h)
      (fun f v h => VError.noConfusion h) (fun c h => VError.noConfusion h)
      (fun a b h => VError.noConfusion h), req_missingDate, truthyStr_eq_false]

/-! ### C2 — bounded retry loop -/

theorem retry_node_retry_count (s : InvoiceState) :
    (retry_node s).retry_count = s.retry_count + 1 := rfl

theorem should_retry_proceed {s : InvoiceState} (h : s.validation_errors = []) :
    should_retry s = "proceed" := by
  unfold should_retry
  rw [if_pos h]

theorem should_retry_retry {s : InvoiceState} (h : s.validation_errors ≠ [])
    (h2 : s.retry_count < 2) : should_retry s = "retry" := by
  unfold should_retry
  rw [if_neg h, if_pos h2]

theorem should_retry_failed {s : InvoiceState} (h : s.validation_errors ≠ [])
    (h2 : ¬ s.retry_count < 2) : should_retry s = "failed" := by
  unfold should_retry
  rw [if_neg h, if_neg h2]

/-- Unfolding `runLoop` on the proceed branch. -/
theorem runLoop_proceed (ex : ℕ → Except String ExtractFields)
    (ao : Except Unit AnomOut) (s : InvoiceState)
    (hE : (pipelineStep ex s).validation_errors = []) :
    runLoop ex ao s = (anomaly_node ao (pipelineStep ex s), 1) := by
  rw [runLoop]
  rw [if_pos (should_retry_proceed hE)]

/-- Unfolding `runLoop` on the retry branch. -/
theorem runLoop_retry (ex : ℕ → Except String ExtractFields)
    (ao : Except Unit AnomOut) (s : InvoiceState)
    (hE : (pipelineStep ex s).validation_errors ≠ [])
    (hR : s.retry_count < 2) :
    runLoop ex ao s =
      ((runLoop ex ao (retry_node (pipelineStep ex s))).1,
       (runLoop ex ao (retry_node (pipelineStep ex s))).2 + 1) := by
  have hr : should_retry (pipelineStep ex s) = "retry" :=
    should_retry_retry hE (by rw [pipelineStep_retry_count]; exact hR)
  rw [runLoop]
  rw [if_neg (by rw [hr]; decide), dif_pos hr]

/-- Unfolding `runLoop` on the terminal-failure branch. -/
theorem runLoop_failed (ex : ℕ → Except String ExtractFields)
    (ao : Except Unit AnomOut) (s : InvoiceState)
    (hE : (pipelineStep ex s).validation_errors ≠ [])
    (hR : ¬ s.retry_count < 2) :
    runLoop ex ao s = (failed_node (pipelineStep ex s), 1) := by
  have hr : should_retry (pipelineStep ex s) = "failed" :=
    should_retry_failed hE (by rw [pipelineStep_retry_count]; exact hR)
  rw [runLoop]
  rw [if_neg (by rw [hr]; decide), dif_neg (by rw [hr]; decide)]

/-- The extraction node runs at most `3 − retryCount` times (so at most 3
times from a fresh record), whatever the oracles answer. -/
theorem runLoop_count_le (ex : ℕ → Except String ExtractFields)
    (ao : Except Unit AnomOut) :
    ∀ (m : ℕ) (s : InvoiceState), 2 - s.retry_count ≤ m →
      (runLoop ex ao s).2 ≤ (2 - s.retry_count) + 1 := by
  intro m
  induction m with
  | zero =>
      intro s hm
      have hrc : 2 ≤ s.retry_count := by omega
      rw [runLoop]
      split
      · simp
      · split
        · next h =>
            exfalso
            have := should_retry_eq_retry h
            rw [pipelineStep_retry_count] at this
            omega
        · simp
  | succ m ih =>
      intro s hm
      by_cases hE : (pipelineStep ex s).validation_errors = []
      · rw [runLoop_proceed ex ao s hE]
        simp
      · by_cases hR : s.retry_count < 2
        · rw [runLoop_retry ex ao s hE hR]
          have hrec := ih (retry_node (pipelineStep ex s))
            (by rw [retry_node_retry_count, pipelineStep_retry_count]; omega)
          rw [retry_node_retry_count, pipelineStep_retry_count] at hrec
          show (runLoop ex ao (retry_node (pipelineStep ex s))).2 + 1 ≤
            2 - s.retry_count + 1
          omega
        · rw [runLoop_failed ex ao s hE hR]
          simp

/-- Under an extraction oracle that always succeeds but always fails
validation, one extract-validate pass from a non-failed record keeps the
retry count, stays non-failed (`Extracted`), and carries errors. -/
theorem pipelineStep_fails (ex : ℕ → Except String ExtractFields)
    (H : ∀ n s, s.status ≠ PipelineStatus.failed →
      (extraction_node (ex n) s).status = PipelineStatus.extracted ∧
      ruleErrors (extraction_node (ex n) s) ≠ [])
    (s : InvoiceState) (hs : s.status ≠ PipelineStatus.failed) :
    (pipelineStep ex s).validation_errors ≠ [] ∧
    (pipelineStep ex s).status = PipelineStatus.extracted ∧
    (pipelineStep ex s).retry_count = s.retry_count := by
  obtain ⟨hst, herr⟩ := H s.retry_count s hs
  unfold pipelineStep validation_node
  rw [if_neg (by rw [hst]; decide), if_pos herr]
  exact ⟨herr, hst, extraction_node_retry_count _ _⟩

/-- C2: whatever the oracles do, a fresh record (`retryCount = 0`) runs
field extraction at most 3 times; and when extraction always succeeds but
its output always fails validation, the loop terminates after exactly 3
extraction runs with `retryCount = 2` and final status `Failed`. -/
theorem C2_bounded_retry (ex : ℕ → Except String ExtractFields)
    (ao : Except Unit AnomOut) (s0 : InvoiceState)
    (h0 : s0.retry_count = 0) :
    (runLoop ex ao s0).2 ≤ 3 ∧
    (s0.status ≠ PipelineStatus.failed →
      (∀ n s, s.status ≠ PipelineStatus.failed →
        (extraction_node (ex n) s).status = PipelineStatus.extracted ∧
        ruleErrors (extraction_node (ex n) s) ≠ []) →
      (runLoop ex ao s0).1.retry_count = 2 ∧
      (runLoop ex ao s0).1.status = PipelineStatus.failed ∧
      (runLoop ex ao s0).2 = 3) := by
  constructor
  · have := runLoop_count_le ex ao 2 s0 (by omega)
    omega
  · intro hs0 H
    -- pass 1 (retryCount 0)
    obtain ⟨hE0, hS0, hR0⟩ := pipelineStep_fails ex H s0 hs0
    have hstep1 := runLoop_retry ex ao s0 hE0 (by omega)
    set s1 := retry_node (pipelineStep ex s0) with hs1def
    have h1rc : s1.retry_count = 1 := by
      simp [hs1def, retry_node, hR0, h0]
    have h1st : s1.status ≠ PipelineStatus.failed := by
      show (pipelineStep ex s0).status ≠ PipelineStatus.failed
      rw [hS0]
      decide
    -- pass 2 (retryCount 1)
    obtain ⟨hE1, hS1, hR1⟩ := pipelineStep_fails ex H s1 h1st
    have hstep2 := runLoop_retry ex ao s1 hE1 (by omega)
    set s2 := retry_node (pipelineStep ex s1) with hs2def
    have h2rc : s2.retry_count = 2 := by
      simp [hs2def, retry_node, hR1, h1rc]
    have h2st : s2.status ≠ PipelineStatus.failed := by
      show (pipelineStep ex s1).status ≠ PipelineStatus.failed
      rw [hS1]
      decide
    -- pass 3 (retryCount 2): terminal failure
    obtain ⟨hE2, hS2, hR2⟩ := pipelineStep_fails ex H s2 h2st
    have hstep3 := runLoop_failed ex ao s2 hE2 (by omega)
    refine ⟨?_, ?_, ?_⟩ <;>
      rw [hstep1, hstep2, hstep3] <;>
      simp [failed_node, hR2, h2rc]

/-- C2 witness: on a fresh record with an extraction oracle whose parsed
fields are all null (so validation always fails), the loop ends with
`retryCount = 2`, status `Failed`, after exactly 3 extraction runs. -/
theorem C2_bounded_retry_witness :
    baseState.retry_count = 0 ∧ baseState.status ≠ PipelineStatus.failed ∧
    (runLoop exAllNull aoRaise baseState).1.retry_count = 2 ∧
    (runLoop exAllNull aoRaise baseState).1.status = PipelineStatus.failed ∧
    (runLoop exAllNull aoRaise baseState).2 = 3 := by
  have hH : ∀ n s, s.status ≠ PipelineStatus.failed →
      (extraction_node (exAllNull n) s).status = PipelineStatus.extracted ∧
      ruleErrors (extraction_node (exAllNull n) s) ≠ [] := by
    intro n s hs
    constructor
    · simp [extraction_node, exAllNull, hs]
    · norm_num [extraction_node, exAllNull, hs, ruleErrors,
        requiredFieldErrors, totalsErrors, negativeErrors, confidenceErrors,
        lineItemsErrors, truthyStr, truthyNum]
      decide
  obtain ⟨h1, h2, h3⟩ :=
    (C2_bounded_retry exAllNull aoRaise baseState rfl).2 (by decide) hH
  exact ⟨rfl, by decide, h1, h2, h3⟩

/-! ### C5 — vendor whitelisting and anomaly filtering -/

/-- C5 counterexample: the claim's criterion — the lower-cased trimmed
vendor name equals / contains / is contained in some whitelist entry —
holds for the empty vendor name (`""` is contained in `"acme"`), so the
claim calls it whitelisted and requires the `"vendor"`-marked anomaly to
be removed; the code's truthiness early-exit refuses empty names and
returns the list unchanged. -/
theorem C5_counterexample :
    strIn (pyStrip (pyLower "")) "acme" = true ∧
    is_vendor_whitelisted "" ["acme"] = false ∧
    filter_vendor_anomalies ["Vendor name looks suspicious"] (some "") ["acme"] =
      ["Vendor name looks suspicious"] := by
  refine ⟨by decide, by decide, by decide⟩

/-- C5 (amended): a NON-EMPTY vendor name is whitelisted exactly when its
lower-cased trimmed form equals / contains / is contained in some
whitelist entry (an empty name is never whitelisted); with no vendor name
or a non-whitelisted vendor the anomaly list is returned unchanged; for a
whitelisted vendor the filtered list is a sublist (order kept) holding
exactly the anomalies whose lower-cased text contains none of the five
markers; and the Acme scenario filters to
`["Duplicate invoice number"]`. -/
theorem C5_whitelist_filter :
    (∀ v ws, is_vendor_whitelisted v ws = true ↔
      (v ≠ "" ∧ ∃ w ∈ ws, pyStrip (pyLower v) = w ∨
        strIn w (pyStrip (pyLower v)) = true ∨
        strIn (pyStrip (pyLower v)) w = true)) ∧
    (∀ anomalies ws, filter_vendor_anomalies anomalies none ws = anomalies) ∧
    (∀ anomalies v ws, is_vendor_whitelisted v ws = false →
      filter_vendor_anomalies anomalies (some v) ws = anomalies) ∧
    (∀ anomalies v ws, is_vendor_whitelisted v ws = true →
      (filter_vendor_anomalies anomalies (some v) ws).Sublist anomalies ∧
      ∀ a, a ∈ filter_vendor_anomalies anomalies (some v) ws ↔
        (a ∈ anomalies ∧ ∀ k ∈ vendorKeywords, strIn k (pyLower a) = false)) ∧
    (filter_vendor_anomalies
        ["Vendor name looks suspicious", "Duplicate invoice number"]
        (some "Acme Corp") ["acme"] = ["Duplicate invoice number"]) := by
  refine ⟨?_, ?_, ?_, ?_, by decide⟩
  · intro v ws
    unfold is_vendor_whitelisted
    by_cases hv : v = ""
    · simp [hv]
    · by_cases hw : ws = []
      · simp [hv, hw]
      · rw [if_neg (by simp [hv, hw])]
        simp [List.any_eq_true, hv]
  · intro anomalies ws
    rfl
  · intro anomalies v ws h
    simp only [filter_vendor_anomalies]
    by_cases hv : v = ""
    · rw [if_pos hv]
    · rw [if_neg hv, if_pos (by simp [h])]
  · intro anomalies v ws h
    have hv : v ≠ "" := by
      intro hv
      rw [hv] at h
      simp [is_vendor_whitelisted] at h
    simp only [filter_vendor_anomalies]
    rw [if_neg hv, if_neg (by simp [h])]
    constructor
    · exact List.filter_sublist anomalies
    · intro a
      simp [List.mem_filter, List.any_eq_false]

/-- C5 witness: a vendor not matching the whitelist leaves the anomaly
list unchanged. -/
theorem C5_whitelist_filter_witness :
    filter_vendor_anomalies ["Duplicate invoice number"] (some "Zeta") ["acme"] =
      ["Duplicate invoice number"] :=
  C5_whitelist_filter.2.2.1 ["Duplicate invoice number"] "Zeta" ["acme"] (by decide)

/-! ### C7 — line-item normalization -/

theorem pyNum_zero : pyNum 0 = ⟨false, some 0⟩ := by
  simp [pyNum]

theorem pyNum_five : pyNum 5 = ⟨true, some 5⟩ := by
  norm_num [pyNum]

/-- C7 counterexample: a raw dict whose `quantity` key holds the number 0
is normalized to quantity 1, not 0 — the `or`-chain
`item.get("quantity") or item.get("qty")` treats the falsy 0 as absent
and falls back to the default. -/
theorem C7_counterexample :
    dQ0.quantity = some (pyNum 0) ∧
    normalize_line_items (some [RawEntry.dict dQ0]) = [⟨"x", 1, 5, 5⟩] := by
  constructor
  · rfl
  · have hx : ("x" : String) ≠ "" := by decide
    have hstrip : pyStrip "x" = "x" := by decide
    norm_num [normalize_line_items, fix_line_item_math, normalizeRawItem,
      fixLineItem, pyOr, strOr, coerce_num, pyNum_zero, pyNum_five, dQ0,
      hx, hstrip, List.filterMap_cons, List.filterMap_nil, List.map_cons,
      List.map_nil]

/-- C7 (amended): normalization accepts `amount` for `total`, `qty` for
`quantity`, and `rate`/`price` for `unitPrice`, and coerces missing or
non-float-convertible values to the defaults quantity=1, unitPrice=0,
total=0.  However, the quantity chain uses truthiness: a numeric 0 under
the primary `quantity` key is REPLACED by the default 1; a 0 survives
only through the final `qty` operand of the `or`-chain. -/
theorem C7_normalization :
    (∀ (d : RawItem) (v : PyVal), d.total = none → d.amount = some v →
      (normalizeRawItem d).total = v.asFloat.getD 0) ∧
    (∀ (d : RawItem) (v : PyVal), d.quantity = none → d.qty = some v →
      (normalizeRawItem d).quantity = v.asFloat.getD 1) ∧
    (∀ (d : RawItem) (v : PyVal), d.unit_price = none → d.rate = some v →
      v.truthy = true → (normalizeRawItem d).unit_price = v.asFloat.getD 0) ∧
    (∀ (d : RawItem) (v : PyVal), d.unit_price = none → d.rate = none →
      d.price = some v → (normalizeRawItem d).unit_price = v.asFloat.getD 0) ∧
    (∀ d : RawItem, d.quantity = none → d.qty = none →
      (normalizeRawItem d).quantity = 1) ∧
    (∀ d : RawItem, d.unit_price = none → d.rate = none → d.price = none →
      (normalizeRawItem d).unit_price = 0) ∧
    (∀ d : RawItem, d.total = none → d.amount = none →
      (normalizeRawItem d).total = 0) ∧
    (∀ (d : RawItem) (v : PyVal), d.quantity = some v → v.asFloat = none →
      d.qty = none → (normalizeRawItem d).quantity = 1) ∧
    (∀ d : RawItem, d.quantity = some (pyNum 0) → d.qty = none →
      (normalizeRawItem d).quantity = 1) ∧
    (∀ d : RawItem, d.quantity = none → d.qty = some (pyNum 0) →
      (normalizeRawItem d).quantity = 0) := by
  refine ⟨?_, ?_, ?_, ?_, ?_, ?_, ?_, ?_, ?_, ?_⟩
  · intro d v h1 h2
    simp [normalizeRawItem, h1, h2]
  · intro d v h1 h2
    simp [normalizeRawItem, pyOr, coerce_num, h1, h2]
  · intro d v h1 h2 h3
    simp [normalizeRawItem, pyOr, coerce_num, h1, h2, h3]
  · intro d v h1 h2 h3
    simp [normalizeRawItem, pyOr, coerce_num, h1, h2, h3]
  · intro d h1 h2
    simp [normalizeRawItem, pyOr, coerce_num, h1, h2]
  · intro d h1 h2 h3
    simp [normalizeRawItem, pyOr, coerce_num, h1, h2, h3]
  · intro d h1 h2
    simp [normalizeRawItem, h1, h2]
  · intro d v h1 h2 h3
    by_cases ht : v.truthy <;>
      simp [normalizeRawItem, pyOr, coerce_num, h1, h2, h3, ht]
  · intro d h1 h2
    simp [normalizeRawItem, pyOr, coerce_num, h1, h2, pyNum_zero]
  · intro d h1 h2
    simp [normalizeRawItem, pyOr, coerce_num, h1, h2, pyNum_zero]

/-- C7 witness: a 0 under `qty` (with `quantity` absent) stays 0. -/
theorem C7_normalization_witness : (normalizeRawItem dQty0).quantity = 0 :=
  C7_normalization.2.2.2.2.2.2.2.2.2 dQty0 rfl rfl

/-! ### C8 — idempotence of line-item math repair -/

theorem fixLineItem_idem (it : LineItem) :
    fixLineItem (fixLineItem it) = fixLineItem it := by
  obtain ⟨d, q, u, t⟩ := it
  unfold fixLineItem
  by_cases hq : q ≤ 0
  · simp [hq]
  · by_cases h1 : t = 0 ∧ u > 0
    · obtain ⟨rfl, hu⟩ := h1
      simp [hq, hu, ne_of_gt hu]
    · by_cases h2 : u = 0 ∧ t > 0
      · obtain ⟨rfl, ht⟩ := h2
        have hq0 : q ≠ 0 := by
          intro h
          exact hq (le_of_eq h)
        simp [hq, ht, ne_of_gt ht, hq0, h1]
      · simp [hq, h1, h2]

theorem fixLineItem_consistent (it : LineItem) (h1 : 0 < it.quantity)
    (h2 : 0 < it.unit_price)
    (h3 : it.total = round2 (it.quantity * it.unit_price)) :
    fixLineItem it = it := by
  obtain ⟨d, q, u, t⟩ := it
  simp only at h1 h2 h3
  unfold fixLineItem
  rw [if_neg (not_le.mpr h1)]
  by_cases ht : t = 0
  · subst ht
    simp [h2, ne_of_gt h2]
    exact h3.symm
  · simp [ht, ne_of_gt h2]

/-- C8: line-item math repair is idempotent, and items that already
satisfy `total = round2(quantity · unitPrice)` with positive quantity and
unit price are left unchanged. -/
theorem C8_math_repair_idempotent :
    (∀ items, fix_line_item_math (fix_line_item_math items) =
      fix_line_item_math items) ∧
    (∀ items, (∀ it ∈ items, 0 < it.quantity ∧ 0 < it.unit_price ∧
        it.total = round2 (it.quantity * it.unit_price)) →
      fix_line_item_math items = items) := by
  constructor
  · intro items
    induction items with
    | nil => rfl
    | cons a l ih =>
        simp only [fix_line_item_math, List.map_cons] at ih ⊢
        rw [fixLineItem_idem a]
        exact congrArg _ ih
  · intro items
    induction items with
    | nil => exact fun _ => rfl
    | cons a l ih =>
        intro h
        have ha := h a (List.mem_cons_self a l)
        have hl := ih fun it hit => h it (List.mem_cons_of_mem a hit)
        simp only [fix_line_item_math, List.map_cons] at hl ⊢
        rw [fixLineItem_consistent a ha.1 ha.2.1 ha.2.2]
        exact congrArg _ hl

theorem round2_six : round2 ((2:ℚ) * 3) = 6 := by
  rw [round2_val ((2:ℚ) * 3) 600 (by norm_num) (by norm_num)]
  norm_num

/-- C8 witness: a consistent singleton list is unchanged by the repair. -/
theorem C8_math_repair_idempotent_witness :
    fix_line_item_math [⟨"w", 2, 3, 6⟩] = [⟨"w", 2, 3, 6⟩] := by
  refine C8_math_repair_idempotent.2 [⟨"w", 2, 3, 6⟩] ?_
  intro it hit
  rw [List.mem_singleton] at hit
  subst hit
  refine ⟨by norm_num, by norm_num, ?_⟩
  rw [round2_six]

/-! ### C6 — subtotal reconciliation of the last line item -/

theorem fixsub_unchanged_lt (items : List LineItem) (sub : ℚ)
    (h1 : |sumTotals items - sub| < 2/100) :
    fix_line_items_with_subtotal items (some sub) = items := by
  simp only [fix_line_items_with_subtotal]
  by_cases h0 : items = []
  · rw [if_pos h0]
  · rw [if_neg h0, if_pos h1]

theorem fixsub_unchanged_neg (items : List LineItem) (sub : ℚ)
    (h1 : ¬ |sumTotals items - sub| < 2/100)
    (h2 : round2 (sub - sumTotals items.dropLast) < 0) :
    fix_line_items_with_subtotal items (some sub) = items := by
  simp only [fix_line_items_with_subtotal]
  by_cases h0 : items = []
  · rw [if_pos h0]
  · rw [if_neg h0, if_neg h1, if_pos h2]

theorem fixsub_adjust (items : List LineItem) (sub : ℚ) (last : LineItem)
    (h0 : items ≠ [])
    (h1 : ¬ |sumTotals items - sub| < 2/100)
    (h2 : ¬ round2 (sub - sumTotals items.dropLast) < 0)
    (hg : items.getLast? = some last) :
    fix_line_items_with_subtotal items (some sub) =
      items.dropLast ++
        [⟨last.description, last.quantity,
          (if last.quantity ≠ 0 then
            round2 (round2 (sub - sumTotals items.dropLast) / last.quantity)
           else 0),
          round2 (sub - sumTotals items.dropLast)⟩] := by
  simp only [fix_line_items_with_subtotal]
  rw [if_neg h0, if_neg h1, if_neg h2, hg]

theorem round2_ten : round2 (10:ℚ) = 10 := by
  rw [round2_val 10 1000 (by norm_num) (by norm_num)]
  norm_num

theorem round2_10_3 : round2 ((10:ℚ)/3) = 333/100 := by
  rw [round2_val ((10:ℚ)/3) 333 (by norm_num) (by norm_num)]
  norm_num

/-- C6 counterexample, two violations in one record each.
(1) `itemsA` (one item, total 10.02) against subtotal 10 differs by
exactly 0.02 — NOT "more than 0.02" — yet the code (`< 0.02` check)
still rewrites the last item.  (2) For `itemsB` the corrected last total
is 10 over quantity 3; the claim's `unitPrice = correctedTotal/quantity`
would give 10/3, but the code stores `round2(10/3) = 3.33 ≠ 10/3`. -/
theorem C6_counterexample :
    |sumTotals itemsA - 10| = 2/100 ∧
    fix_line_items_with_subtotal itemsA (some 10) = [⟨"a", 1, 10, 10⟩] ∧
    fix_line_items_with_subtotal itemsA (some 10) ≠ itemsA ∧
    fix_line_items_with_subtotal itemsB (some 15) =
      [⟨"x", 1, 5, 5⟩, ⟨"y", 3, 333/100, 10⟩] ∧
    ((333:ℚ)/100) ≠ 10/3 := by
  have hsumA : sumTotals itemsA = 501/50 := by
    simp [sumTotals, itemsA]
  have habsA : |sumTotals itemsA - 10| = 2/100 := by
    rw [hsumA, show (501:ℚ)/50 - 10 = 1/50 by norm_num,
      abs_of_pos (by norm_num : (0:ℚ) < 1/50)]
    norm_num
  refine ⟨habsA, ?_, ?_, ?_, by norm_num⟩
  · rw [fixsub_adjust itemsA 10 ⟨"a", 1, 501/50, 501/50⟩ (by decide)
      (by rw [habsA]; norm_num) ?_ (by rfl)]
    · norm_num [itemsA, sumTotals, round2_ten]
    · norm_num [itemsA, sumTotals, round2_ten]
  · rw [fixsub_adjust itemsA 10 ⟨"a", 1, 501/50, 501/50⟩ (by decide)
      (by rw [habsA]; norm_num) ?_ (by rfl)]
    · norm_num [itemsA, sumTotals, round2_ten]
    · norm_num [itemsA, sumTotals, round2_ten]
  · have hsumB : sumTotals itemsB = 6 := by
      simp [sumTotals, itemsB]
      norm_num
    have hrestB : sumTotals itemsB.dropLast = 5 := by
      simp [sumTotals, itemsB]
    have hcB : round2 (15 - sumTotals itemsB.dropLast) = 10 := by
      rw [hrestB, show (15:ℚ) - 5 = 10 by norm_num, round2_ten]
    rw [fixsub_adjust itemsB 15 ⟨"y", 3, 1, 1⟩ (by decide)
      (by rw [hsumB, show (6:ℚ) - 15 = -9 by norm_num, abs_neg,
            abs_of_pos (by norm_num : (0:ℚ) < 9)]
          norm_num)
      (by rw [hcB]; norm_num) (by rfl)]
    rw [hcB]
    norm_num [itemsB, round2_10_3]

/-- C6 (amended): with a non-empty item list and a declared subtotal, the
reconciliation never touches any item but the last; it fires exactly when
the totals differ from the subtotal by AT LEAST 0.02 (the source compares
with `< 0.02`, so a difference of exactly 0.02 is already adjusted); the
corrected last total is `round2(subtotal − sum(others))`, with
`unitPrice = round2(correctedTotal/quantity)` (0 when quantity = 0); a
negative corrected total aborts the adjustment, so no corrected total is
ever negative. -/
theorem C6_subtotal_reconciliation (items : List LineItem) (sub : ℚ)
    (h : items ≠ []) :
    (fix_line_items_with_subtotal items (some sub)).dropLast = items.dropLast ∧
    (|sumTotals items - sub| < 2/100 →
      fix_line_items_with_subtotal items (some sub) = items) ∧
    (round2 (sub - sumTotals items.dropLast) < 0 →
      fix_line_items_with_subtotal items (some sub) = items) ∧
    (2/100 ≤ |sumTotals items - sub| →
      0 ≤ round2 (sub - sumTotals items.dropLast) →
      ∀ last, items.getLast? = some last →
        fix_line_items_with_subtotal items (some sub) =
          items.dropLast ++
            [⟨last.description, last.quantity,
              (if last.quantity ≠ 0 then
                round2 (round2 (sub - sumTotals items.dropLast) / last.quantity)
               else 0),
              round2 (sub - sumTotals items.dropLast)⟩]) ∧
    (∀ it ∈ fix_line_items_with_subtotal items (some sub),
      it ∈ items ∨ 0 ≤ it.total) := by
  have hdecomp : ∃ rest lastI, items = rest ++ [lastI] := by
    rcases List.eq_nil_or_concat items with hnil | ⟨rest, lastI, hconcat⟩
    · exact absurd hnil h
    · exact ⟨rest, lastI, by rw [hconcat, List.concat_eq_append]⟩
  obtain ⟨rest, last, rfl⟩ := hdecomp
  · have hg : (rest ++ [last]).getLast? = some last := by simp
    have hd : (rest ++ [last]).dropLast = rest := by simp
    refine ⟨?_, ?_, ?_, ?_, ?_⟩
    · by_cases h1 : |sumTotals (rest ++ [last]) - sub| < 2/100
      · rw [fixsub_unchanged_lt _ sub h1]
      · by_cases h2 : round2 (sub - sumTotals (rest ++ [last]).dropLast) < 0
        · rw [fixsub_unchanged_neg _ sub h1 h2]
        · rw [fixsub_adjust _ sub last h h1 h2 hg, hd]
          simp
    · exact fun h1 => fixsub_unchanged_lt _ sub h1
    · intro h2
      by_cases h1 : |sumTotals (rest ++ [last]) - sub| < 2/100
      · exact fixsub_unchanged_lt _ sub h1
      · exact fixsub_unchanged_neg _ sub h1 h2
    · intro h1 h2 last' hg'
      have hlast : last' = last := by
        rw [hg] at hg'
        exact (Option.some.injEq _ _ ▸ hg').symm
      subst hlast
      exact fixsub_adjust _ sub last' h (not_lt.mpr h1) (not_lt.mpr h2) hg'
    · intro it hit
      by_cases h1 : |sumTotals (rest ++ [last]) - sub| < 2/100
      · rw [fixsub_unchanged_lt _ sub h1] at hit
        exact Or.inl hit
      · by_cases h2 : round2 (sub - sumTotals (rest ++ [last]).dropLast) < 0
        · rw [fixsub_unchanged_neg _ sub h1 h2] at hit
          exact Or.inl hit
        · rw [fixsub_adjust _ sub last h h1 h2 hg, hd] at hit
          rcases List.mem_append.mp hit with hm | hm
          · exact Or.inl (List.mem_append_left _ hm)
          · rw [List.mem_singleton] at hm
            subst hm
            exact Or.inr (by simpa [hd] using not_lt.mp h2)

/-- C6 witness: a consistent list (difference under 0.02) is unchanged. -/
theorem C6_subtotal_reconciliation_witness :
    fix_line_items_with_subtotal [⟨"a", 1, 10, 10⟩] (some 10) =
      [⟨"a", 1, 10, 10⟩] := by
  refine (C6_subtotal_reconciliation [⟨"a", 1, 10, 10⟩] 10 (by decide)).2.1 ?_
  have : sumTotals [⟨"a", 1, 10, 10⟩] = 10 := by simp [sumTotals]
  rw [this]
  norm_num

/-! ### C1 — there is no missing-tax validation rule -/

/-- C1 counterexample: `recC1` enters validation with `status ≠ Failed`,
`taxAmount` absent and `isTaxExempt = false`; the claim demands exactly
one missing-tax error, but validation emits no error at all (the
missing-tax check exists only in the anomaly-stage LLM prompt, not in
`validation_node`). -/
theorem C1_counterexample :
    recC1.tax_amount = none ∧ recC1.is_tax_exempt = false ∧
    recC1.status ≠ PipelineStatus.failed ∧
    (validation_node recC1).validation_errors = [] := by
  refine ⟨rfl, rfl, by decide, ?_⟩
  rw [validation_node_errors recC1 (by decide)]
  norm_num [ruleErrors, requiredFieldErrors, totalsErrors, negativeErrors,
    confidenceErrors, lineItemsErrors, truthyStr, truthyNum, recC1, baseState,
    initial_state]
  decide

/-- C1 (amended): the validation stage has no missing-tax rule at all.
A record with `taxAmount` absent — whatever the value of `isTaxExempt` —
receives no error for it: if every actual rule passes, validation returns
an empty error list and `status = Validated`. -/
theorem C1_no_missing_tax (s : InvoiceState) (b : Bool)
    (h : s.status ≠ PipelineStatus.failed)
    (htax : s.tax_amount = none)
    (hv : truthyStr s.vendor_name = true)
    (hn : truthyStr s.invoice_number = true)
    (hd : truthyStr s.invoice_date = true)
    (ht : ∃ t, s.total_amount = some t ∧ 0 < t)
    (hsub : s.subtotal = none)
    (hc : 6/10 ≤ s.confidence_score) :
    validation_node { s with is_tax_exempt := b } =
      { s with is_tax_exempt := b, validation_errors := [],
               status := PipelineStatus.validated } := by
  obtain ⟨t, hT, hTpos⟩ := ht
  have hne : t ≠ 0 := ne_of_gt hTpos
  have hnneg : ¬ t < 0 := not_lt.mpr (le_of_lt hTpos)
  have hcf : ¬ s.confidence_score < 6/10 := not_lt.mpr hc
  have herr : ruleErrors { s with is_tax_exempt := b } = [] := by
    simp [ruleErrors, requiredFieldErrors, totalsErrors, negativeErrors,
      confidenceErrors, lineItemsErrors, truthyNum, hv, hn, hd, htax, hsub,
      hT, hne, hnneg, hcf]
  unfold validation_node
  rw [if_neg (by simpa using h), if_neg (by simp [herr])]

/-- C1 witness: the amended statement at the concrete record `recC1`. -/
theorem C1_no_missing_tax_witness :
    recC1.tax_amount = none ∧
    validation_node { recC1 with is_tax_exempt := false } =
      { recC1 with is_tax_exempt := false, validation_errors := [],
                   status := PipelineStatus.validated } :=
  ⟨rfl,
    C1_no_missing_tax recC1 false (by decide) rfl (by decide) (by decide)
      (by decide) ⟨110, rfl, by norm_num⟩ rfl
      (by norm_num [recC1, baseState, initial_state])⟩

/-! ### C9 — totals-consistency rule -/

/-- A totals-mismatch error can only come from the totals rule. -/
theorem totalMismatch_mem_ruleErrors (s : InvoiceState) (a b c d : ℚ) :
    VError.totalMismatch a b c d ∈ ruleErrors s ↔
      VError.totalMismatch a b c d ∈ totalsErrors s := by
  unfold ruleErrors
  simp only [List.mem_append]
  constructor
  · rintro ((((hc | hc) | hc) | hc) | hc)
    · rcases mem_requiredFieldErrors hc with h | h | h | h <;> exact VError.noConfusion h
    · exact hc
    · obtain ⟨f, v, hEq⟩ := mem_negativeErrors hc
      exact VError.noConfusion hEq
    · obtain ⟨cc, hEq⟩ := mem_confidenceErrors hc
      exact VError.noConfusion hEq
    · obtain ⟨x, y, hEq⟩ := mem_lineItemsErrors hc
      exact VError.noConfusion hEq
  · exact fun hc => Or.inl (Or.inl (Or.inl (Or.inr hc)))

theorem round2_110 : round2 ((110:ℚ)) = 110 := by
  rw [round2_val ((110:ℚ)) 11000 (by norm_num) (by norm_num)]
  norm_num

theorem round2_sum_110 : round2 ((100:ℚ) + 10) = 110 := by
  rw [show ((100:ℚ) + 10) = 110 by norm_num]
  exact round2_110

theorem round2_109_5 : round2 ((219:ℚ)/2) = 219/2 := by
  rw [round2_val ((219:ℚ)/2) 10950 (by norm_num) (by norm_num)]
  norm_num

theorem abs_halfcent : |(110:ℚ) - 219/2| = 1/2 := by
  rw [show ((110:ℚ) - 219/2) = 1/2 by norm_num]
  exact abs_of_pos (by norm_num)

/-- C9: whenever `subtotal`, `taxAmount` and `totalAmount` are all
present, validation emits the totals error — which names the computed and
actual rounded values — exactly when
`|round2(subtotal+tax) − round2(total)| > 0.01`; and on the scenario
subtotal=100, tax=10, total=109.50 the full error list is exactly the one
mismatch error (expected 110 vs actual 109.50). -/
theorem C9_totals_consistency :
    (∀ (s : InvoiceState) (sub tax tot : ℚ), s.status ≠ PipelineStatus.failed →
      s.subtotal = some sub → s.tax_amount = some tax → s.total_amount = some tot →
      (VError.totalMismatch sub tax (round2 (sub + tax)) (round2 tot) ∈
          (validation_node s).validation_errors ↔
        |round2 (sub + tax) - round2 tot| > 1/100)) ∧
    (validation_node recC9).validation_errors =
      [VError.totalMismatch 100 10 110 (219/2)] := by
  constructor
  · intro s sub tax tot h hs ht hT
    rw [validation_node_errors s h, totalMismatch_mem_ruleErrors]
    by_cases hgt : |round2 (sub + tax) - round2 tot| > 1/100 <;>
      simp [totalsErrors, hs, ht, hT, hgt]
  · rw [validation_node_errors recC9 (by decide)]
    have hS1 : "Acme Corp" ≠ "" := by decide
    have hS2 : "INV-1001" ≠ "" := by decide
    have hS3 : "2024-01-15" ≠ "" := by decide
    have habs : |(1:ℚ)/2| = 1/2 := abs_of_pos (by norm_num)
    norm_num [ruleErrors, requiredFieldErrors, totalsErrors, negativeErrors,
      confidenceErrors, lineItemsErrors, truthyStr, truthyNum, recC9, recC1,
      baseState, initial_state, round2_110, round2_sum_110, round2_109_5,
      habs, hS1, hS2, hS3]

/-- C9 witness: on the mismatch scenario the error is present. -/
theorem C9_totals_consistency_witness :
    VError.totalMismatch 100 10 (round2 ((100:ℚ) + 10)) (round2 ((219:ℚ)/2)) ∈
      (validation_node recC9).validation_errors := by
  refine (C9_totals_consistency.1 recC9 100 10 (219/2) (by decide) rfl rfl rfl).mpr ?_
  rw [round2_sum_110, round2_109_5, abs_halfcent]
  norm_num

/-- C10 witness: `totalAmount = 0` and `vendorName = ""` both draw their
"Missing ..." errors on a concrete record. -/
theorem C10_truthiness_witness :
    VError.missingTotalAmount ∈ (validation_node recC10).validation_errors ∧
    VError.missingVendorName ∈ (validation_node recC10).validation_errors := by
  constructor
  · exact ((C10_truthiness recC10 (by decide)).1).mpr (Or.inr rfl)
  · exact ((C10_truthiness recC10 (by decide)).2.1).mpr (Or.inr rfl)
